import Mathlib

/-!
Shallow embedding of the runtime configuration subsystem of the pgcat
connection-pooling proxy (`src/config.rs`): the schema model with its
defaults, the TOML-level decoder (mirroring the serde-derived
`Deserialize` impls), the validator run by `parse`, the process-wide
config store, and the reload coordinator `reload_config`.

File I/O, TLS credential decoding and pool recreation are external
collaborators; they are modelled as components of an `Env` record.
The configuration source is modelled at the level of the decoded TOML
document (`Toml` values); an unreadable or syntactically invalid file
is modelled as `Env.fs` returning `none`.
-/

set_option autoImplicit false

namespace Pgcat

/-- Error kind from `errors.rs` (not part of this file's source).
`config.rs` itself only ever constructs `Error::BadConfig`; pool
recreation (`ConnectionPool::from_config`) may return other variants,
abstracted here by `other`. -/
inductive Error where
  | BadConfig
  | other (code : Nat)
deriving DecidableEq, Repr

/-- Server role: primary or replica (`enum Role`). -/
inductive Role where
  | Primary
  | Replica
deriving DecidableEq, Repr

/-- Embeds `impl ToString for Role`. -/
def Role.toString : Role → String
  | .Primary => "primary"
  | .Replica => "replica"

/-- Embeds `impl PartialEq<Option<Role>> for Role`: comparing a concrete
role against an optional role; `None` matches anything. -/
def Role.eqOptRole (r : Role) (other : Option Role) : Bool :=
  match other with
  | none => true
  | some role => r = role

/-- Embeds `impl PartialEq<Role> for Option<Role>`: the mirror direction. -/
def optRoleEqRole (o : Option Role) (other : Role) : Bool :=
  match o with
  | none => true
  | some role => role = other

/-- PostgreSQL user (`struct User`). -/
structure User where
  name : String
  password : String
deriving DecidableEq, Repr

/-- Embeds `impl Default for User`. -/
def User.default : User :=
  { name := "postgres", password := "" }

/-- General configuration (`struct General`). `port` is an `i16` in the
source; its value is an integer in `[-2^15, 2^15)`, enforced at decode
time. `pool_size` is `u32`, the timeouts are `u64`, `ban_time` is `i64`. -/
structure General where
  host : String
  port : Int
  pool_size : Nat
  pool_mode : String
  connect_timeout : Nat
  healthcheck_timeout : Nat
  ban_time : Int
  autoreload : Bool
  tls_certificate : Option String
  tls_private_key : Option String
deriving DecidableEq, Repr

/-- Embeds `impl Default for General`. -/
def General.default : General :=
  { host := "localhost"
    port := 5432
    pool_size := 15
    pool_mode := "transaction"
    connect_timeout := 5000
    healthcheck_timeout := 1000
    ban_time := 60
    autoreload := false
    tls_certificate := none
    tls_private_key := none }

/-- A server entry of a shard: `(host, port, role)` with `port : u16`. -/
abbrev ServerEntry := String × Nat × String

/-- Shard configuration (`struct Shard`). -/
structure Shard where
  servers : List ServerEntry
  database : String
deriving DecidableEq, Repr

/-- Embeds `impl Default for Shard`. -/
def Shard.default : Shard :=
  { servers := [("localhost", 5432, "primary")], database := "postgres" }

/-- Query router configuration (`struct QueryRouter`). -/
structure QueryRouter where
  default_role : String
  query_parser_enabled : Bool
  primary_reads_enabled : Bool
  sharding_function : String
deriving DecidableEq, Repr

/-- Embeds `impl Default for QueryRouter`. -/
def QueryRouter.default : QueryRouter :=
  { default_role := "any"
    query_parser_enabled := false
    primary_reads_enabled := true
    sharding_function := "pg_bigint_hash" }

/-- Embeds `fn default_path()`, the serde default for `Config.path`. -/
def default_path : String := "pgcat.toml"

/-- Configuration wrapper (`struct Config`). The Rust
`HashMap<String, Shard>` is modelled as an association list with the
document's key order; equality of the map is `shardsBeq` below. -/
structure Config where
  path : String
  general : General
  user : User
  shards : List (String × Shard)
  query_router : QueryRouter
deriving DecidableEq, Repr

/-- Embeds `impl Default for Config`. -/
def Config.default : Config :=
  { path := "pgcat.toml"
    general := General.default
    user := User.default
    shards := [("1", Shard.default)]
    query_router := QueryRouter.default }

/-- First-match lookup in an association list of shards (TOML tables
have unique keys, so this is the map lookup of `HashMap`). -/
def lookupShard (l : List (String × Shard)) (k : String) : Option Shard :=
  match l with
  | [] => none
  | kv :: rest => if kv.1 = k then some kv.2 else lookupShard rest k

/-- Equality of the `shards` field as `HashMap` equality: same keys
bound to the same shards, irrespective of order. -/
def shardsBeq (a b : List (String × Shard)) : Bool :=
  a.all (fun kv => decide (lookupShard b kv.1 = some kv.2)) &&
    b.all (fun kv => decide (lookupShard a kv.1 = some kv.2))

/-- `PartialEq` on `Config`: field-wise, with `HashMap` equality on
`shards`. -/
def configBeq (a b : Config) : Bool :=
  decide (a.path = b.path) && decide (a.general = b.general) &&
    decide (a.user = b.user) && shardsBeq a.shards b.shards &&
    decide (a.query_router = b.query_router)

/-! ## TOML documents and the serde-derived decoder

`Toml` is the value tree of a parsed TOML document. The decoder mirrors
`serde_derive`'s generated `Deserialize` impls: unknown keys are
ignored, a missing required field is a decode error, a field of type
`Option<T>` defaults to `None` when the key is absent, and only
`Config.path` carries a `#[serde(default)]` attribute. Integer fields
are range-checked against their Rust integer type. -/

inductive Toml where
  | str (s : String)
  | int (n : Int)
  | bool (b : Bool)
  | array (vs : List Toml)
  | table (kvs : List (String × Toml))

/-- Key lookup in a decoded TOML table. -/
def Toml.lookup (kvs : List (String × Toml)) (k : String) : Option Toml :=
  match kvs with
  | [] => none
  | kv :: rest => if kv.1 = k then some kv.2 else Toml.lookup rest k

/-- Decode a TOML value as a Rust `String`. -/
def decodeStr : Toml → Except String String
  | .str s => .ok s
  | _ => .error "expected string"

/-- Decode a TOML value as a Rust `bool`. -/
def decodeBool : Toml → Except String Bool
  | .bool b => .ok b
  | _ => .error "expected boolean"

/-- Decode a TOML integer as an `i16` (range-checked). -/
def decodeI16 : Toml → Except String Int
  | .int n => if -32768 ≤ n ∧ n ≤ 32767 then .ok n
      else .error "integer out of range of i16"
  | _ => .error "expected integer"

/-- Decode a TOML integer as a `u16` (range-checked). -/
def decodeU16 : Toml → Except String Nat
  | .int n => if 0 ≤ n ∧ n ≤ 65535 then .ok n.toNat
      else .error "integer out of range of u16"
  | _ => .error "expected integer"

/-- Decode a TOML integer as a `u32` (range-checked). -/
def decodeU32 : Toml → Except String Nat
  | .int n => if 0 ≤ n ∧ n ≤ 4294967295 then .ok n.toNat
      else .error "integer out of range of u32"
  | _ => .error "expected integer"

/-- Decode a TOML integer as a `u64`. TOML integers are `i64`, so only
non-negativity can fail. -/
def decodeU64 : Toml → Except String Nat
  | .int n => if 0 ≤ n then .ok n.toNat
      else .error "integer out of range of u64"
  | _ => .error "expected integer"

/-- Decode a TOML integer as an `i64` (every TOML integer fits). -/
def decodeI64 : Toml → Except String Int
  | .int n => .ok n
  | _ => .error "expected integer"

/-- A required struct field: absent key is a decode error. -/
def reqField {α : Type} (kvs : List (String × Toml)) (k : String)
    (f : Toml → Except String α) : Except String α :=
  match Toml.lookup kvs k with
  | some v => f v
  | none => .error "missing field"

/-- An `Option<String>` struct field: serde decodes an absent key as
`None`. -/
def optStrField (kvs : List (String × Toml)) (k : String) :
    Except String (Option String) :=
  match Toml.lookup kvs k with
  | some v => do
    let s ← decodeStr v
    pure (some s)
  | none => .ok none

/-- Derived `Deserialize` for `General`: all ten fields are required except the
two `Option` TLS paths. -/
def General.decode : Toml → Except String General
  | .table kvs => do
      let host ← reqField kvs "host" decodeStr
      let port ← reqField kvs "port" decodeI16
      let pool_size ← reqField kvs "pool_size" decodeU32
      let pool_mode ← reqField kvs "pool_mode" decodeStr
      let connect_timeout ← reqField kvs "connect_timeout" decodeU64
      let healthcheck_timeout ← reqField kvs "healthcheck_timeout" decodeU64
      let ban_time ← reqField kvs "ban_time" decodeI64
      let autoreload ← reqField kvs "autoreload" decodeBool
      let tls_certificate ← optStrField kvs "tls_certificate"
      let tls_private_key ← optStrField kvs "tls_private_key"
      pure { host, port, pool_size, pool_mode, connect_timeout,
             healthcheck_timeout, ban_time, autoreload,
             tls_certificate, tls_private_key }
  | _ => .error "expected table for general"

/-- Derived `Deserialize` for `User`. -/
def User.decode : Toml → Except String User
  | .table kvs => do
      let name ← reqField kvs "name" decodeStr
      let password ← reqField kvs "password" decodeStr
      pure { name, password }
  | _ => .error "expected table for user"

/-- Derived `Deserialize` for one `(String, u16, String)` server tuple: an
array of exactly three elements. -/
def decodeServer : Toml → Except String ServerEntry
  | .array [h, p, r] => do
      let host ← decodeStr h
      let port ← decodeU16 p
      let role ← decodeStr r
      pure (host, port, role)
  | _ => .error "expected a (host, port, role) tuple"

/-- Derived `Deserialize` for `Vec<(String, u16, String)>`. -/
def decodeServers : Toml → Except String (List ServerEntry)
  | .array vs => vs.mapM decodeServer
  | _ => .error "expected array of servers"

/-- Derived `Deserialize` for `Shard`. -/
def Shard.decode : Toml → Except String Shard
  | .table kvs => do
      let servers ← reqField kvs "servers" decodeServers
      let database ← reqField kvs "database" decodeStr
      pure { servers, database }
  | _ => .error "expected table for shard"

/-- Derived `Deserialize` for `HashMap<String, Shard>`: each table entry is a
shard keyed by its string index. -/
def decodeShards : Toml → Except String (List (String × Shard))
  | .table kvs => kvs.mapM (fun kv => do
      let s ← Shard.decode kv.2
      pure (kv.1, s))
  | _ => .error "expected table of shards"

/-- Derived `Deserialize` for `QueryRouter`. -/
def QueryRouter.decode : Toml → Except String QueryRouter
  | .table kvs => do
      let default_role ← reqField kvs "default_role" decodeStr
      let query_parser_enabled ← reqField kvs "query_parser_enabled" decodeBool
      let primary_reads_enabled ← reqField kvs "primary_reads_enabled" decodeBool
      let sharding_function ← reqField kvs "sharding_function" decodeStr
      pure { default_role, query_parser_enabled, primary_reads_enabled,
             sharding_function }
  | _ => .error "expected table for query_router"

/-- The `path` field with its `#[serde(default = "default_path")]`
attribute: absent decodes to `default_path`, present must be a string. -/
def pathField (kvs : List (String × Toml)) : Except String String :=
  match Toml.lookup kvs "path" with
  | some v => decodeStr v
  | none => .ok default_path

/-- Derived `Deserialize` for `Config`: `path` has `#[serde(default =
"default_path")]`, every other field is required. -/
def Config.decode : Toml → Except String Config
  | .table kvs => do
      let path ← pathField kvs
      let general ← reqField kvs "general" General.decode
      let user ← reqField kvs "user" User.decode
      let shards ← reqField kvs "shards" decodeShards
      let query_router ← reqField kvs "query_router" QueryRouter.decode
      pure { path, general, user, shards, query_router }
  | _ => .error "expected table at top level"

/-! ## Validation (the sanity checks performed inside `parse`)

Every check mirrors a block of `parse` in `config.rs`; each failure is
logged there and turned into `Error::BadConfig`. The per-server loop
(duplicate collection, primary counting, role spelling) is decomposed
into sequential checks with the same fail/succeed behaviour. -/

/-- Value of an ASCII decimal digit. -/
def digitVal (c : Char) : Option Nat :=
  if '0' ≤ c ∧ c ≤ '9' then some (c.toNat - 48) else none

/-- Accumulate decimal digits left to right. -/
def digitsVal : List Char → Nat → Option Nat
  | [], acc => some acc
  | c :: cs, acc =>
      match digitVal c with
      | some d => digitsVal cs (acc * 10 + d)
      | none => none

/-- Rust `str::parse::<usize>()`: base-10 digits with an optional
leading `+`, rejecting empty strings, non-digits and values over
`usize::MAX`. -/
def parseUsize (s : String) : Option Nat :=
  let cs := match s.data with
    | '+' :: rest => rest
    | cs => cs
  match cs with
  | [] => none
  | _ =>
      match digitsVal cs 0 with
      | some n => if n < 18446744073709551616 then some n else none
      | none => none

/-- The `sharding_function` whitelist check. -/
def checkShardingFn (qr : QueryRouter) : Except Error Unit :=
  match qr.sharding_function with
  | "pg_bigint_hash" => .ok ()
  | "sha1" => .ok ()
  | _ => .error .BadConfig

/-- Shard keys must parse as `usize`. -/
def checkShardKey (k : String) : Except Error Unit :=
  match parseUsize k with
  | some _ => .ok ()
  | none => .error .BadConfig

/-- A shard must have at least one server. -/
def checkNonEmpty (servers : List ServerEntry) : Except Error Unit :=
  if servers.length = 0 then .error .BadConfig else .ok ()

/-- Role spelling: every server role is `"primary"` or `"replica"`. -/
def checkRoles (servers : List ServerEntry) : Except Error Unit :=
  if servers.all (fun s => s.2.2 = "primary" ∨ s.2.2 = "replica") then .ok ()
  else .error .BadConfig

/-- Number of servers marked `"primary"` in a shard. -/
def primaryCount (servers : List ServerEntry) : Nat :=
  servers.countP (fun s => s.2.2 = "primary")

/-- Rejects `primary_count > 1`. -/
def checkPrimaryCount (servers : List ServerEntry) : Except Error Unit :=
  if 1 < primaryCount servers then .error .BadConfig else .ok ()

/-- The `dup_check` HashSet: decoding detects duplicates when the set of
distinct entries is smaller than the list. -/
def checkNoDup (servers : List ServerEntry) : Except Error Unit :=
  if servers.dedup.length ≠ servers.length then .error .BadConfig else .ok ()

/-- Per-shard sanity check (one iteration of the `for shard in
&config.shards` loop). -/
def checkShard (kv : String × Shard) : Except Error Unit := do
  checkShardKey kv.1
  checkNonEmpty kv.2.servers
  checkRoles kv.2.servers
  checkPrimaryCount kv.2.servers
  checkNoDup kv.2.servers

/-- The whole shard loop, fail-fast. -/
def checkShards : List (String × Shard) → Except Error Unit
  | [] => .ok ()
  | kv :: rest => do
      checkShard kv
      checkShards rest

/-- The `default_role` whitelist check. -/
def checkDefaultRole (qr : QueryRouter) : Except Error Unit :=
  match qr.default_role with
  | "any" => .ok ()
  | "primary" => .ok ()
  | "replica" => .ok ()
  | _ => .error .BadConfig

/-- External collaborators of `parse` and `reload_config`: the file
system (a readable file at a path yields its decoded TOML document),
the TLS credential validator (`load_certs` / `load_keys` succeed or
fail on a path), and the pool manager
(`ConnectionPool::from_config`'s outcome). -/
structure Env where
  fs : String → Option Toml
  load_certs : String → Bool
  load_keys : String → Bool
  pool : Except Error Unit

/-- The TLS pairing validation block of `parse`. -/
def checkTls (env : Env) (g : General) : Except Error Unit :=
  match g.tls_certificate with
  | some cert =>
      if env.load_certs cert then
        match g.tls_private_key with
        | some key =>
            if env.load_keys key then .ok () else .error .BadConfig
        | none => .error .BadConfig
  else .error .BadConfig
  | none => .ok ()

/-- All validation performed by `parse` after decoding, in source
order. -/
def validate (env : Env) (c : Config) : Except Error Unit := do
  checkShardingFn c.query_router
  checkShards c.shards
  checkDefaultRole c.query_router
  checkTls env c.general

/-! ## The config store, `parse` and `reload_config`

The process-wide `CONFIG: Lazy<ArcSwap<Config>>` store is modelled by
explicit state passing: each operation takes the currently published
`Config` (what `get_config()` returns) and yields the published config
after the call. To settle ordering claims, `parse` and `reload_config`
also emit the trace of externally visible actions they perform. -/

/-- Externally visible actions: publishing a config to the store
(`CONFIG.store`) and asking the pool manager to recreate all pools
(`ConnectionPool::from_config`). -/
inductive Event where
  | publish (c : Config)
  | recreatePools
deriving DecidableEq, Repr

/-- Embeds `parse(path)`: open/read the file, decode, validate, stamp the
path, publish. Returns the result, the config published after the call
(unchanged on failure), and the action trace. -/
def parse (env : Env) (path : String) (store : Config) :
    Except Error Unit × Config × List Event :=
  match env.fs path with
  | none => (.error .BadConfig, store, [])
  | some doc =>
      match Config.decode doc with
      | .error _ => (.error .BadConfig, store, [])
      | .ok config =>
          match validate env config with
          | .error e => (.error e, store, [])
          | .ok _ =>
              let config := { config with path := path }
              (.ok (), config, [.publish config])

/-- Embeds `reload_config`: re-parse the stored path, then diff the old and
new configs; a shard-mapping or user change triggers pool recreation. -/
def reload_config (env : Env) (store : Config) :
    Except Error Bool × Config × List Event :=
  let old_config := store
  match parse env old_config.path store with
  | (.error _, st, tr) => (.error .BadConfig, st, tr)
  | (.ok _, st, tr) =>
      let new_config := st
      if ¬shardsBeq old_config.shards new_config.shards ∨
          old_config.user ≠ new_config.user then
        match env.pool with
        | .ok _ => (.ok true, st, tr ++ [.recreatePools])
        | .error e => (.error e, st, tr ++ [.recreatePools])
      else if ¬configBeq old_config new_config then
        (.ok true, st, tr)
      else
        (.ok false, st, tr)

/-! ## Concrete documents, configurations and environments

Closed inputs used to witness the theorems below and to exhibit
counterexamples. `mkEnv doc` is a file system exposing `doc` at
`"p.toml"`, with TLS credential decoding succeeding and pool
recreation succeeding. -/

/-- A `[general]` section with every required field present and the
optional TLS fields omitted. -/
def generalDoc : Toml :=
  .table [("host", .str "0.0.0.0"), ("port", .int 6432),
    ("pool_size", .int 20), ("pool_mode", .str "session"),
    ("connect_timeout", .int 100), ("healthcheck_timeout", .int 100),
    ("ban_time", .int 60), ("autoreload", .bool false)]

/-- A `[user]` section. -/
def userDoc : Toml := .table [("name", .str "admin"), ("password", .str "pw")]

/-- A `[shards]` section with one shard `"0"`. -/
def shardsDoc : Toml :=
  .table [("0", .table [("servers",
    .array [.array [.str "h1", .int 5432, .str "primary"]]),
    ("database", .str "db")])]

/-- A `[query_router]` section. -/
def qrDoc : Toml :=
  .table [("default_role", .str "any"),
    ("query_parser_enabled", .bool false),
    ("primary_reads_enabled", .bool true),
    ("sharding_function", .str "sha1")]

/-- A complete valid document (no top-level `path` key). -/
def docComplete : Toml :=
  .table [("general", generalDoc), ("user", userDoc),
    ("shards", shardsDoc), ("query_router", qrDoc)]

/-- The configuration `docComplete` decodes to. -/
def cfgComplete : Config :=
  { path := "pgcat.toml"
    general := { host := "0.0.0.0", port := 6432, pool_size := 20,
                 pool_mode := "session", connect_timeout := 100,
                 healthcheck_timeout := 100, ban_time := 60,
                 autoreload := false, tls_certificate := none,
                 tls_private_key := none }
    user := { name := "admin", password := "pw" }
    shards := [("0", { servers := [("h1", 5432, "primary")], database := "db" })]
    query_router := { default_role := "any", query_parser_enabled := false,
                      primary_reads_enabled := true,
                      sharding_function := "sha1" } }

/-- The document `docComplete` with the `general` section omitted. -/
def docNoGeneral : Toml :=
  .table [("user", userDoc), ("shards", shardsDoc), ("query_router", qrDoc)]

/-- The document `docComplete` with the `user` section omitted. -/
def docNoUser : Toml :=
  .table [("general", generalDoc), ("shards", shardsDoc), ("query_router", qrDoc)]

/-- The document `docComplete` with the `shards` section omitted. -/
def docNoShards : Toml :=
  .table [("general", generalDoc), ("user", userDoc), ("query_router", qrDoc)]

/-- The document `docComplete` with the `query_router` section omitted. -/
def docNoQueryRouter : Toml :=
  .table [("general", generalDoc), ("user", userDoc), ("shards", shardsDoc)]

/-- The document `docComplete` with the single field `general.host`
omitted. -/
def docNoHost : Toml :=
  .table [("general", .table [("port", .int 6432),
    ("pool_size", .int 20), ("pool_mode", .str "session"),
    ("connect_timeout", .int 100), ("healthcheck_timeout", .int 100),
    ("ban_time", .int 60), ("autoreload", .bool false)]),
    ("user", userDoc), ("shards", shardsDoc), ("query_router", qrDoc)]

/-- Entries of a `general` section with `port = 65432`, a valid TCP
port above `i16::MAX`. -/
def gkvsBigPort : List (String × Toml) :=
  [("host", .str "0.0.0.0"), ("port", .int 65432),
    ("pool_size", .int 20), ("pool_mode", .str "session"),
    ("connect_timeout", .int 100), ("healthcheck_timeout", .int 100),
    ("ban_time", .int 60), ("autoreload", .bool false)]

/-- Top-level entries of the complete document with
`general.port = 65432`. -/
def kvsBigPort : List (String × Toml) :=
  [("general", .table gkvsBigPort), ("user", userDoc),
    ("shards", shardsDoc), ("query_router", qrDoc)]

/-- The complete document with `general.port = 65432`. -/
def docBigPort : Toml := .table kvsBigPort

/-- The complete document with a present but empty `shards` table. -/
def docEmptyShards : Toml :=
  .table [("general", generalDoc), ("user", userDoc),
    ("shards", .table []), ("query_router", qrDoc)]

/-- The complete document with a top-level `path` key set by the
document author. -/
def docWithPath : Toml :=
  .table [("path", .str "attacker-chosen.toml"), ("general", generalDoc),
    ("user", userDoc), ("shards", shardsDoc), ("query_router", qrDoc)]

/-- A shard whose two distinct servers are both marked `"primary"`. -/
def shardTwoPrimaries : Shard :=
  { servers := [("h1", 5432, "primary"), ("h2", 5432, "primary")],
    database := "db" }

/-- A decoded configuration containing `shardTwoPrimaries`. -/
def cfgTwoPrimaries : Config :=
  { cfgComplete with shards := [("0", shardTwoPrimaries)] }

/-- An environment whose file system exposes `doc` at `"p.toml"`, with
TLS credential decoding and pool recreation both succeeding. -/
def mkEnv (doc : Toml) : Env :=
  { fs := fun p => if p = "p.toml" then some doc else none
    load_certs := fun _ => true
    load_keys := fun _ => true
    pool := .ok () }

/-- The pre-reload store used in the reload scenarios: the default
configuration pointing at `"p.toml"`. -/
def storeC : Config := { Config.default with path := "p.toml" }

/-- Like `mkEnv docComplete`, but pool recreation fails. -/
def envPoolFail : Env := { mkEnv docComplete with pool := .error (.other 7) }

/-- What a successful `parse` of `docComplete` at `"p.toml"` publishes. -/
def cfgNewC : Config := { cfgComplete with path := "p.toml" }

/-- A validation outcome is either success or `BadConfig`; every
`error!`-logged violation in `parse` maps to the single error kind. -/
def okOrBad (x : Except Error Unit) : Prop :=
  x = .ok () ∨ x = .error .BadConfig

/-! ## Helper lemmas -/

@[simp] theorem exceptBind_ok {ε α β : Type} (a : α) (f : α → Except ε β) :
    (Except.ok a >>= f) = f a := rfl

@[simp] theorem exceptBind_error {ε α β : Type} (e : ε) (f : α → Except ε β) :
    ((Except.error e : Except ε α) >>= f) = Except.error e := rfl

theorem okOrBad_bind {x : Except Error Unit} {f : Unit → Except Error Unit}
    (hx : okOrBad x) (hf : okOrBad (f ())) : okOrBad (x >>= f) := by
  rcases hx with h | h <;> rw [h]
  · simpa using hf
  · simp [okOrBad]

theorem okOrBad_checkShardingFn (qr : QueryRouter) :
    okOrBad (checkShardingFn qr) := by
  unfold okOrBad checkShardingFn
  split <;> simp

theorem okOrBad_checkShardKey (k : String) : okOrBad (checkShardKey k) := by
  unfold okOrBad checkShardKey
  split <;> simp

theorem okOrBad_checkNonEmpty (servers : List ServerEntry) :
    okOrBad (checkNonEmpty servers) := by
  unfold okOrBad checkNonEmpty
  split <;> simp

theorem okOrBad_checkRoles (servers : List ServerEntry) :
    okOrBad (checkRoles servers) := by
  unfold okOrBad checkRoles
  split <;> simp

theorem okOrBad_checkPrimaryCount (servers : List ServerEntry) :
    okOrBad (checkPrimaryCount servers) := by
  unfold okOrBad checkPrimaryCount
  split <;> simp

theorem okOrBad_checkNoDup (servers : List ServerEntry) :
    okOrBad (checkNoDup servers) := by
  unfold okOrBad checkNoDup
  split <;> simp

theorem okOrBad_checkShard (kv : String × Shard) : okOrBad (checkShard kv) := by
  unfold checkShard
  exact okOrBad_bind (okOrBad_checkShardKey _)
    (okOrBad_bind (okOrBad_checkNonEmpty _)
      (okOrBad_bind (okOrBad_checkRoles _)
        (okOrBad_bind (okOrBad_checkPrimaryCount _) (okOrBad_checkNoDup _))))

theorem okOrBad_checkShards (l : List (String × Shard)) :
    okOrBad (checkShards l) := by
  induction l with
  | nil => exact Or.inl rfl
  | cons kv rest ih =>
      exact okOrBad_bind (okOrBad_checkShard kv) ih

theorem okOrBad_checkDefaultRole (qr : QueryRouter) :
    okOrBad (checkDefaultRole qr) := by
  unfold okOrBad checkDefaultRole
  split <;> simp

theorem okOrBad_checkTls (env : Env) (g : General) :
    okOrBad (checkTls env g) := by
  unfold okOrBad checkTls
  split
  · split
    · split
      · split <;> simp
      · simp
    · simp
  · simp

theorem okOrBad_validate (env : Env) (c : Config) :
    okOrBad (validate env c) := by
  unfold validate
  exact okOrBad_bind (okOrBad_checkShardingFn _)
    (okOrBad_bind (okOrBad_checkShards _)
      (okOrBad_bind (okOrBad_checkDefaultRole _) (okOrBad_checkTls _ _)))

theorem validate_error_badconfig {env : Env} {c : Config} {e : Error}
    (h : validate env c = .error e) : e = .BadConfig := by
  rcases okOrBad_validate env c with h2 | h2 <;> rw [h2] at h
  · exact absurd h (by simp)
  · exact (Except.error.injEq _ _ ▸ h.symm : _)

theorem validate_ok_parts {env : Env} {c : Config}
    (h : validate env c = .ok ()) :
    checkShardingFn c.query_router = .ok () ∧ checkShards c.shards = .ok () ∧
      checkDefaultRole c.query_router = .ok () ∧
      checkTls env c.general = .ok () := by
  unfold validate at h
  rcases okOrBad_checkShardingFn c.query_router with h1 | h1
  · rw [h1] at h; simp only [exceptBind_ok] at h
    rcases okOrBad_checkShards c.shards with h2 | h2
    · rw [h2] at h; simp only [exceptBind_ok] at h
      rcases okOrBad_checkDefaultRole c.query_router with h3 | h3
      · rw [h3] at h; simp only [exceptBind_ok] at h
        exact ⟨h1, h2, h3, h⟩
      · rw [h3] at h; simp at h
    · rw [h2] at h; simp at h
  · rw [h1] at h; simp at h

theorem checkShards_ok_mem {l : List (String × Shard)}
    (h : checkShards l = .ok ()) : ∀ kv ∈ l, checkShard kv = .ok () := by
  induction l with
  | nil => intro kv hkv; simp at hkv
  | cons a rest ih =>
      intro kv hkv
      unfold checkShards at h
      rcases okOrBad_checkShard a with h1 | h1
      · rw [h1] at h; simp only [exceptBind_ok] at h
        rcases List.mem_cons.mp hkv with rfl | hmem
        · exact h1
        · exact ih h kv hmem
      · rw [h1] at h; simp at h

theorem checkShard_ok_primaryCount {kv : String × Shard}
    (h : checkShard kv = .ok ()) : primaryCount kv.2.servers ≤ 1 := by
  unfold checkShard at h
  rcases okOrBad_checkShardKey kv.1 with h1 | h1
  · rw [h1] at h; simp only [exceptBind_ok] at h
    rcases okOrBad_checkNonEmpty kv.2.servers with h2 | h2
    · rw [h2] at h; simp only [exceptBind_ok] at h
      rcases okOrBad_checkRoles kv.2.servers with h3 | h3
      · rw [h3] at h; simp only [exceptBind_ok] at h
        rcases okOrBad_checkPrimaryCount kv.2.servers with h4 | h4
        · unfold checkPrimaryCount at h4
          split at h4
          · simp at h4
          · omega
        · rw [h4] at h; simp at h
      · rw [h3] at h; simp at h
    · rw [h2] at h; simp at h
  · rw [h1] at h; simp at h

theorem parse_cases (env : Env) (p : String) (store : Config) :
    (∃ doc config, env.fs p = some doc ∧ Config.decode doc = .ok config ∧
        validate env config = .ok () ∧
        parse env p store =
          (.ok (), { config with path := p },
            [.publish { config with path := p }])) ∨
    ((parse env p store).1 ≠ .ok () ∧
        parse env p store = (.error .BadConfig, store, [])) := by
  rcases hfs : env.fs p with _ | doc
  · right
    constructor <;> simp [parse, hfs]
  · rcases hdec : Config.decode doc with e | config
    · right
      constructor <;> simp [parse, hfs, hdec]
    · rcases hval : validate env config with e | u
      · right
        have he : e = .BadConfig := validate_error_badconfig hval
        subst he
        constructor <;> simp [parse, hfs, hdec, hval]
      · left
        cases u
        exact ⟨doc, config, rfl, hdec, hval, by simp [parse, hfs, hdec, hval]⟩

/-- C2: whenever `parse(p)` fails — unopenable or unreadable file
(`Env.fs` returns `none`), decode failure, or any validation invariant
violation — the returned error is `BadConfig` and the configuration
published in the config store (what `get_config` returns) is exactly
what it was before the call. -/
theorem c2_parse_failure_preserves_store (env : Env) (p : String)
    (store : Config) (e : Error)
    (h : (parse env p store).1 = .error e) :
    (parse env p store).2.1 = store ∧ e = .BadConfig := by
  rcases parse_cases env p store with ⟨doc, config, _, _, _, hshape⟩ | ⟨_, hshape⟩
  · rw [hshape] at h; simp at h
  · rw [hshape] at h ⊢
    simp at h
    exact ⟨rfl, h.symm⟩

theorem c2_witness :
    (parse (mkEnv docComplete) "missing.toml" Config.default).1 =
        .error .BadConfig ∧
      (parse (mkEnv docComplete) "missing.toml" Config.default).2.1 =
        Config.default :=
  ⟨rfl, (c2_parse_failure_preserves_store (mkEnv docComplete) "missing.toml"
    Config.default .BadConfig rfl).1⟩

/-- C4: equality between a concrete `Role` and an optional `Role` is a
symmetric wildcard: a `none` role compares equal to every concrete role
in both directions, and against `some s` both directions coincide with
plain equality of the roles. -/
theorem c4_role_wildcard :
    (∀ r : Role, Role.eqOptRole r none = true ∧ optRoleEqRole none r = true) ∧
    (∀ r s : Role, (Role.eqOptRole r (some s) = true ↔ r = s) ∧
      (optRoleEqRole (some s) r = true ↔ r = s)) := by
  constructor
  · intro r; exact ⟨rfl, rfl⟩
  · intro r s
    cases r <;> cases s <;> simp [Role.eqOptRole, optRoleEqRole]

/-- C9: after every successful `parse(p)`, the `path` field of the
published configuration is `p`: whatever the document's own top-level
`path` key decoded to is unconditionally overwritten with the argument
before the configuration is published. -/
theorem c9_path_stamped (env : Env) (p : String) (store : Config)
    (h : (parse env p store).1 = .ok ()) :
    (parse env p store).2.1.path = p := by
  rcases parse_cases env p store with ⟨doc, config, _, _, _, hshape⟩ | ⟨hfail, _⟩
  · rw [hshape]
  · exact absurd h hfail

theorem c9_witness :
    (parse (mkEnv docWithPath) "p.toml" Config.default).2.1.path = "p.toml" :=
  c9_path_stamped (mkEnv docWithPath) "p.toml" Config.default rfl

/-- C5: the TLS pairing rule of validation: a set `tls_certificate`
must decode (else `BadConfig`); when it decodes, `tls_private_key`
must be set and must decode (else `BadConfig`); an unset
`tls_certificate` skips the rule entirely, whatever `tls_private_key`
is. -/
theorem c5_tls_pairing (env : Env) (g : General) :
    (g.tls_certificate = none → checkTls env g = .ok ()) ∧
    (∀ cert, g.tls_certificate = some cert → env.load_certs cert = false →
      checkTls env g = .error .BadConfig) ∧
    (∀ cert, g.tls_certificate = some cert → env.load_certs cert = true →
      g.tls_private_key = none → checkTls env g = .error .BadConfig) ∧
    (∀ cert key, g.tls_certificate = some cert → env.load_certs cert = true →
      g.tls_private_key = some key → env.load_keys key = false →
      checkTls env g = .error .BadConfig) ∧
    (∀ cert key, g.tls_certificate = some cert → env.load_certs cert = true →
      g.tls_private_key = some key → env.load_keys key = true →
      checkTls env g = .ok ()) := by
  refine ⟨?_, ?_, ?_, ?_, ?_⟩
  · intro h; simp [checkTls, h]
  · intro cert hc hlc; simp [checkTls, hc, hlc]
  · intro cert hc hlc hk; simp [checkTls, hc, hlc, hk]
  · intro cert key hc hlc hk hlk; simp [checkTls, hc, hlc, hk, hlk]
  · intro cert key hc hlc hk hlk; simp [checkTls, hc, hlc, hk, hlk]

theorem c5_witness :
    checkTls (mkEnv docComplete)
        { General.default with tls_certificate := some "server.pem" } =
      .error .BadConfig :=
  (c5_tls_pairing (mkEnv docComplete)
    { General.default with tls_certificate := some "server.pem" }).2.2.1
    "server.pem" rfl rfl rfl

/-- C7: a decoded configuration containing a shard with two or more
servers whose role string is `"primary"` (all role strings being
valid) fails validation with `BadConfig`; the primary-count check
itself passes on any server list with zero or exactly one primary. -/
theorem c7_at_most_one_primary :
    (∀ (env : Env) (c : Config) (k : String) (sh : Shard),
      (k, sh) ∈ c.shards → 2 ≤ primaryCount sh.servers →
      (∀ s ∈ sh.servers, s.2.2 = "primary" ∨ s.2.2 = "replica") →
      validate env c = .error .BadConfig) ∧
    (∀ servers : List ServerEntry, primaryCount servers ≤ 1 →
      checkPrimaryCount servers = .ok ()) := by
  constructor
  · intro env c k sh hmem hcount _hroles
    rcases okOrBad_validate env c with hv | hv
    · exfalso
      have hshards := (validate_ok_parts hv).2.1
      have hsh := checkShards_ok_mem hshards (k, sh) hmem
      have h2 : primaryCount sh.servers ≤ 1 := checkShard_ok_primaryCount hsh
      omega
    · exact hv
  · intro servers h
    unfold checkPrimaryCount
    rw [if_neg (by omega : ¬ 1 < primaryCount servers)]

theorem c7_witness :
    validate (mkEnv docComplete) cfgTwoPrimaries = .error .BadConfig ∧
      checkPrimaryCount [("h1", 5432, "replica")] = .ok () :=
  ⟨c7_at_most_one_primary.1 (mkEnv docComplete) cfgTwoPrimaries "0"
      shardTwoPrimaries (by decide) (by decide) (by decide),
    c7_at_most_one_primary.2 [("h1", 5432, "replica")] (by decide)⟩

/-- C10: a configuration with a present but empty shards table passes
validation: the shard loop is vacuous over the empty map, so `parse`
succeeds and publishes a configuration with zero shards (given the
remaining whitelist and TLS rules hold). -/
theorem c10_empty_shards_ok (env : Env) (p : String) (store : Config)
    (doc : Toml) (cfg : Config)
    (hfs : env.fs p = some doc) (hdec : Config.decode doc = .ok cfg)
    (hsh : cfg.shards = [])
    (hfn : checkShardingFn cfg.query_router = .ok ())
    (hrole : checkDefaultRole cfg.query_router = .ok ())
    (htls : checkTls env cfg.general = .ok ()) :
    checkShards cfg.shards = .ok () ∧
      parse env p store =
        (.ok (), { cfg with path := p }, [.publish { cfg with path := p }]) ∧
      ({ cfg with path := p }).shards = [] := by
  have hshards : checkShards cfg.shards = .ok () := by rw [hsh]; rfl
  have hval : validate env cfg = .ok () := by
    unfold validate
    rw [hfn]; simp only [exceptBind_ok]
    rw [hshards]; simp only [exceptBind_ok]
    rw [hrole]; simp only [exceptBind_ok]
    exact htls
  refine ⟨hshards, ?_, ?_⟩
  · simp [parse, hfs, hdec, hval]
  · simp [hsh]

theorem c10_witness :
    parse (mkEnv docEmptyShards) "p.toml" Config.default =
      (.ok (), { cfgComplete with path := "p.toml", shards := [] },
        [.publish { cfgComplete with path := "p.toml", shards := [] }]) ∧
      ({ cfgComplete with path := "p.toml", shards := [] } : Config).shards
        = [] :=
  (c10_empty_shards_ok (mkEnv docEmptyShards) "p.toml" Config.default
    docEmptyShards { cfgComplete with shards := [] }
    rfl rfl rfl rfl rfl rfl).2

theorem reqField_lookup {α : Type} {kvs : List (String × Toml)} {k : String}
    {v : Toml} (f : Toml → Except String α)
    (h : Toml.lookup kvs k = some v) : reqField kvs k f = f v := by
  unfold reqField
  rw [h]

theorem decodeI16_out_of_range {n : Int} (h : n < -32768 ∨ 32767 < n) :
    decodeI16 (.int n) = .error "integer out of range of i16" := by
  simp only [decodeI16]
  rw [if_neg (by omega)]

theorem general_decode_err {gkvs : List (String × Toml)} {n : Int}
    (hport : Toml.lookup gkvs "port" = some (.int n))
    (hrange : n < -32768 ∨ 32767 < n) :
    ∀ g, General.decode (.table gkvs) ≠ .ok g := by
  intro g hg
  have hpr : reqField gkvs "port" decodeI16 =
      .error "integer out of range of i16" :=
    (reqField_lookup decodeI16 hport).trans (decodeI16_out_of_range hrange)
  simp only [General.decode] at hg
  rcases hh : reqField gkvs "host" decodeStr with e | host
  · rw [hh] at hg; simp at hg
  · rw [hh] at hg
    simp only [exceptBind_ok] at hg
    rw [hpr] at hg
    simp at hg

theorem config_decode_err_of_general {kvs gkvs : List (String × Toml)}
    (hg : Toml.lookup kvs "general" = some (.table gkvs))
    (herr : ∀ g, General.decode (.table gkvs) ≠ .ok g) :
    ∀ c, Config.decode (.table kvs) ≠ .ok c := by
  intro c hc
  have hglk : reqField kvs "general" General.decode =
      General.decode (.table gkvs) := reqField_lookup General.decode hg
  have hgr : ∃ e, reqField kvs "general" General.decode = .error e := by
    rw [hglk]
    rcases hge : General.decode (.table gkvs) with e | g
    · exact ⟨e, rfl⟩
    · exact absurd hge (herr g)
  rcases hgr with ⟨e, hgr⟩
  simp only [Config.decode] at hc
  rcases hp : pathField kvs with e2 | path
  · rw [hp] at hc; simp at hc
  · rw [hp] at hc
    simp only [exceptBind_ok] at hc
    rw [hgr] at hc
    simp at hc

/-- C8: the listen port is decoded as a signed 16-bit integer, so a
document whose `general.port` lies outside `-32768..=32767` — for
instance the valid TCP port 65432 — fails to decode and `parse`
returns `BadConfig`, leaving the store untouched. -/
theorem c8_port_decoded_as_i16 (env : Env) (p : String) (store : Config)
    (kvs gkvs : List (String × Toml)) (n : Int)
    (hfs : env.fs p = some (.table kvs))
    (hgen : Toml.lookup kvs "general" = some (.table gkvs))
    (hport : Toml.lookup gkvs "port" = some (.int n))
    (hrange : n < -32768 ∨ 32767 < n) :
    parse env p store = (.error .BadConfig, store, []) := by
  rcases parse_cases env p store with
    ⟨doc, config, hfs2, hdec, _, _⟩ | ⟨_, hshape⟩
  · rw [hfs] at hfs2
    have hdoc : doc = .table kvs := by
      injection hfs2 with h
      exact h.symm
    subst hdoc
    exact absurd hdec
      (config_decode_err_of_general hgen (general_decode_err hport hrange)
        config)
  · exact hshape

theorem c8_witness :
    parse (mkEnv docBigPort) "p.toml" Config.default =
      (.error .BadConfig, Config.default, []) :=
  c8_port_decoded_as_i16 (mkEnv docBigPort) "p.toml" Config.default
    kvsBigPort gkvsBigPort 65432 rfl rfl rfl (by omega)

theorem parse_ok_shape {env : Env} {p : String} {store : Config}
    (hok : (parse env p store).1 = .ok ()) :
    parse env p store =
      (.ok (), (parse env p store).2.1,
        [.publish (parse env p store).2.1]) := by
  rcases parse_cases env p store with ⟨doc, config, _, _, _, hshape⟩ | ⟨hfail, _⟩
  · rw [hshape]
  · exact absurd hok hfail

theorem configBeq_true_parts {a b : Config} (h : configBeq a b = true) :
    shardsBeq a.shards b.shards = true ∧ a.user = b.user := by
  unfold configBeq at h
  simp only [Bool.and_eq_true, decide_eq_true_eq] at h
  exact ⟨h.1.2, h.1.1.2⟩

/-- C3 (amended): when a reload parses successfully, the new
configuration is published to the config store during `parse`, before
any diffing; then, when the shard mapping or the user differs, the
pool manager is signalled to recreate all pools (so the publish comes
first, not after recreation) and — when recreation succeeds — reload
reports `true`; when only other fields differ it reports `true`
without any recreation; when nothing differs it reports `false`, again
with no recreation. -/
theorem c3_reload_diff_boundary (env : Env) (store st : Config)
    (hok : (parse env store.path store).1 = .ok ())
    (hst : (parse env store.path store).2.1 = st) :
    ((¬ shardsBeq store.shards st.shards = true ∨ store.user ≠ st.user) →
      (reload_config env store).2.2 = [.publish st, .recreatePools] ∧
      (env.pool = .ok () → (reload_config env store).1 = .ok true) ∧
      (reload_config env store).2.1 = st) ∧
    (shardsBeq store.shards st.shards = true → store.user = st.user →
      configBeq store st = false →
      reload_config env store = (.ok true, st, [.publish st])) ∧
    (configBeq store st = true →
      reload_config env store = (.ok false, st, [.publish st])) := by
  have h1 := parse_ok_shape hok
  rw [hst] at h1
  refine ⟨?_, ?_, ?_⟩
  · intro htop
    simp only [reload_config, h1]
    rw [if_pos htop]
    rcases hp : env.pool with e | u
    · simp
    · simp
  · intro hs hu hcb
    simp only [reload_config, h1]
    rw [if_neg (by simp [hs, hu])]
    rw [if_pos (by simp [hcb])]
  · intro hcb
    rcases configBeq_true_parts hcb with ⟨hs, hu⟩
    simp only [reload_config, h1]
    rw [if_neg (by simp [hs, hu])]
    rw [if_neg (by simp [hcb])]

theorem c3_witness :
    (reload_config (mkEnv docComplete) storeC).2.2 =
      [Event.publish cfgNewC, Event.recreatePools] ∧
    ((mkEnv docComplete).pool = .ok () →
      (reload_config (mkEnv docComplete) storeC).1 = .ok true) ∧
    (reload_config (mkEnv docComplete) storeC).2.1 = cfgNewC :=
  (c3_reload_diff_boundary (mkEnv docComplete) storeC cfgNewC rfl rfl).1
    (by decide)

/-- C3 counterexample: a topology-changing reload (the stored default
shards and user differ from the parsed document's) whose action trace
starts with the publication of the new configuration — the pool
recreation signal comes second, not first as the claim states. -/
theorem c3_counterexample :
    (¬ shardsBeq storeC.shards cfgNewC.shards = true) ∧
      (reload_config (mkEnv docComplete) storeC).2.2 =
        [Event.publish cfgNewC, Event.recreatePools] ∧
      (reload_config (mkEnv docComplete) storeC).2.2.head? ≠
        some Event.recreatePools :=
  ⟨by decide, rfl, by decide⟩

/-- C6: when pool recreation fails during a topology-changing reload,
`reload_config` propagates that error to its caller and the newly
parsed configuration remains published in the config store — there is
no rollback to the pre-reload configuration. -/
theorem c6_pool_failure_no_rollback (env : Env) (store st : Config)
    (e : Error)
    (hok : (parse env store.path store).1 = .ok ())
    (hst : (parse env store.path store).2.1 = st)
    (htop : ¬ shardsBeq store.shards st.shards = true ∨
      store.user ≠ st.user)
    (hpool : env.pool = .error e) :
    (reload_config env store).1 = .error e ∧
      (reload_config env store).2.1 = st := by
  have h1 := parse_ok_shape hok
  rw [hst] at h1
  simp only [reload_config, h1]
  rw [if_pos htop, hpool]
  exact ⟨rfl, rfl⟩

theorem c6_witness :
    (reload_config envPoolFail storeC).1 = .error (.other 7) ∧
      (reload_config envPoolFail storeC).2.1 = cfgNewC :=
  c6_pool_failure_no_rollback envPoolFail storeC cfgNewC (.other 7)
    rfl rfl (by decide) rfl

/-- C1 counterexample: the source document omitting every section (the
empty table) is claimed to decode with every documented default;
instead decoding fails on the first missing required field and `parse`
returns `BadConfig`, leaving the store untouched. -/
theorem c1_counterexample :
    parse (mkEnv (.table [])) "p.toml" Config.default =
        (.error .BadConfig, Config.default, []) ∧
      Config.decode (.table []) = .error "missing field" :=
  ⟨rfl, rfl⟩

/-- C1 (amended): only the `path` field carries a decode-time default
(`"pgcat.toml"`), and the `Option`-typed TLS fields decode to unset
when omitted; omitting any other field or section — `general`, `user`,
`shards`, `query_router`, or a single required field such as
`general.host` — fails decoding, so `parse` returns `BadConfig`. The
documented default values (host=localhost, port=5432, pool_size=15,
pool_mode="transaction", connect_timeout=5000,
healthcheck_timeout=1000, ban_time=60, autoreload=false, no TLS,
default_role="any", query_parser_enabled=false,
primary_reads_enabled=true, sharding_function="pg_bigint_hash") are
the `Default`-impl values of the initial store, not decode-time
defaults. -/
theorem c1_only_path_defaulted :
    Config.decode docComplete = .ok cfgComplete ∧
      cfgComplete.path = default_path ∧
      cfgComplete.general.tls_certificate = none ∧
      cfgComplete.general.tls_private_key = none ∧
      Config.decode docNoGeneral = .error "missing field" ∧
      Config.decode docNoUser = .error "missing field" ∧
      Config.decode docNoShards = .error "missing field" ∧
      Config.decode docNoQueryRouter = .error "missing field" ∧
      Config.decode docNoHost = .error "missing field" ∧
      General.default = { host := "localhost", port := 5432,
                          pool_size := 15, pool_mode := "transaction",
                          connect_timeout := 5000,
                          healthcheck_timeout := 1000, ban_time := 60,
                          autoreload := false, tls_certificate := none,
                          tls_private_key := none } ∧
      QueryRouter.default = { default_role := "any",
                              query_parser_enabled := false,
                              primary_reads_enabled := true,
                              sharding_function := "pg_bigint_hash" } :=
  ⟨rfl, rfl, rfl, rfl, rfl, rfl, rfl, rfl, rfl, rfl, rfl⟩

end Pgcat
